import Mathlib

/-!
Verification of transproxify (src/main.cpp) against its specification.

The file embeds the command-line handling, password prompt and server
dispatch of src/main.cpp as executable Lean definitions, and models from
the specification those components (handshake clients, stream relay,
protocol-combination check) whose source files are not part of src/.
-/

namespace Transproxify

/-- Upstream proxy protocol, from ProxySettings::ProxyProtocol as used in
src/main.cpp (values set by the -t option). -/
inductive ProxyProtocol where
  | DIRECT
  | HTTP
  | SOCKS4
  | SOCKS5
deriving DecidableEq, Repr

/-- Proxied transport protocol, from ProxySettings::ProxiedProtocol as used
in src/main.cpp (values set by the -r option). -/
inductive ProxiedProtocol where
  | TCP
  | UDP
deriving DecidableEq, Repr

/-- The -t option handler in src/main.cpp lines 170-187: maps the option
argument to a proxy protocol, or none for the exit(1) branch. -/
def tProtocolOf (s : String) : Option ProxyProtocol :=
  if s = "direct" then some .DIRECT
  else if s = "http" then some .HTTP
  else if s = "socks4" then some .SOCKS4
  else if s = "socks5" then some .SOCKS5
  else none

/-- The -r option handler in src/main.cpp lines 189-200: maps the option
argument to a proxied protocol, or none for the exit(1) branch. -/
def rProtocolOf (s : String) : Option ProxiedProtocol :=
  if s = "tcp" then some .TCP
  else if s = "udp" then some .UDP
  else none

/-- One option event as returned by getopt over the option string
"t:r:u:pP:" in src/main.cpp line 168: a recognised option with its
argument, or unknown for any character getopt reports as unrecognised. -/
inductive Opt where
  | t (arg : String)
  | r (arg : String)
  | u (arg : String)
  | p
  | P (arg : String)
  | unknown
deriving DecidableEq, Repr

/-- The mutable locals of main accumulated by the getopt loop,
src/main.cpp lines 157-165, with their initial values. -/
structure OptState where
  proxyProtocol : ProxyProtocol := .HTTP
  proxiedProtocol : ProxiedProtocol := .TCP
  username : String := ""
  password : String := ""
  promptPassword : Bool := false
deriving DecidableEq, Repr

/-- One iteration of the getopt switch, src/main.cpp lines 169-215.
An error value models the print_usage, exit(1) branches. -/
def applyOpt (st : OptState) : Opt → Except Unit OptState
  | .t s =>
    match tProtocolOf s with
    | some pp => .ok { st with proxyProtocol := pp }
    | none => .error ()
  | .r s =>
    match rProtocolOf s with
    | some rp => .ok { st with proxiedProtocol := rp }
    | none => .error ()
  | .u s => .ok { st with username := s }
  | .p => .ok { st with promptPassword := true }
  | .P s => .ok { st with password := s }
  | .unknown => .error ()

/-- The whole getopt loop, src/main.cpp lines 168-216: the options are
processed left to right, stopping at the first exit(1). -/
def applyOpts (st : OptState) : List Opt → Except Unit OptState
  | [] => .ok st
  | o :: rest =>
    match applyOpt st o with
    | .error e => .error e
    | .ok st2 => applyOpts st2 rest

/-- The C locale isspace set skipped by std::stoi before conversion. -/
def cIsSpace (c : Char) : Bool :=
  c = ' ' || c = '\t' || c = '\n' || c = '\x0b' || c = '\x0c' || c = '\r'

/-- Value of a list of decimal digit characters, most significant first. -/
def digitsToNat : List Char → Nat
  | [] => 0
  | c :: rest => digitsToNat rest + c.toNat.sub 48 * 10 ^ rest.length

/-- Outcome of std::stoi on a string: a converted value, or the exception
it raises (std::invalid_argument when no conversion is possible,
std::out_of_range when the value does not fit an int). -/
inductive StoiResult where
  | ok (v : Int)
  | invalidArgument
  | outOfRange
deriving DecidableEq, Repr

/-- Behaviour of std::stoi(s) in base 10 on a 32-bit int platform:
leading C whitespace is skipped, an optional sign is read, then decimal
digits; no digits raises invalid_argument, a value outside
[-2^31, 2^31-1] raises out_of_range, and trailing characters are
ignored. Used by src/main.cpp lines 223-224. -/
def stoiClassify (s : String) : StoiResult :=
  let cs := s.data.dropWhile cIsSpace
  let signed : Bool × List Char :=
    match cs with
    | '-' :: rest => (true, rest)
    | '+' :: rest => (false, rest)
    | _ => (false, cs)
  let ds := signed.2.takeWhile Char.isDigit
  if ds.isEmpty then .invalidArgument
  else
    let v : Int := (if signed.1 then -1 else 1) * (digitsToNat ds : Int)
    if v < -(2 ^ 31) || v > 2 ^ 31 - 1 then .outOfRange else .ok v

/-- Outcome of reading the three positional arguments, src/main.cpp
lines 217-228: wrong count and std::invalid_argument both lead to the
usage message and exit(1); std::out_of_range is not caught there. -/
inductive PositionalsResult where
  | wrongCount
  | invalidArg
  | outOfRange
  | ok (proxyHost : String) (proxyPort listenPort : Int)
deriving DecidableEq, Repr

/-- src/main.cpp lines 217-228: exactly three positional arguments are
required; proxyHost is taken verbatim, then proxyPort and listenPort are
converted with std::stoi in that order, so the first exception raised
decides the outcome. -/
def parsePositionals : List String → PositionalsResult
  | [host, p1, p2] =>
    match stoiClassify p1 with
    | .invalidArgument => .invalidArg
    | .outOfRange => .outOfRange
    | .ok v1 =>
      match stoiClassify p2 with
      | .invalidArgument => .invalidArg
      | .outOfRange => .outOfRange
      | .ok v2 => .ok host v1 v2
  | _ => .wrongCount

/-- Result of std::cin.getline(buf, 256) in src/main.cpp line 237. The
stdin model is an optional line: none when no character can be
extracted (end of input), some s for a line of s followed by a
newline. -/
structure GetlineResult where
  stored : String
  failed : Bool
deriving DecidableEq, Repr

/-- std::cin.getline(buf, 256) stores at most 255 characters: a line of
at most 255 characters is stored whole and the newline consumed; a
longer line stores the first 255 characters and sets failbit; absent
input sets failbit with nothing stored. -/
def getline256 (stdin : Option String) : GetlineResult :=
  match stdin with
  | none => ⟨"", true⟩
  | some s =>
    if s.length ≤ 255 then ⟨s, false⟩
    else ⟨String.mk (s.data.take 255), true⟩

/-- Observable state of the prompt block at one program point: whether
the terminal echoes, and the current value of the password variable. -/
structure PromptSnapshot where
  echoEnabled : Bool
  password : String
deriving DecidableEq, Repr

/-- Trace of the prompt block, src/main.cpp lines 230-245, one snapshot
per program point at which the process could stop: after tcgetattr
(line 232), after echo is cleared (lines 233-234), while getline blocks
(line 237), after the password assignment (line 238), and after echo is
restored (lines 239-240). The code is a manual disable/enable pair, so
the trace records echo disabled at the intermediate points. -/
def promptTrace (pw0 : String) (stdin : Option String) : List PromptSnapshot :=
  let g := getline256 stdin
  [⟨true, pw0⟩,
   ⟨false, pw0⟩,
   ⟨false, pw0⟩,
   ⟨false, g.stored⟩,
   ⟨true, g.stored⟩]

/-- Final state of the prompt block when it runs to completion: the
snapshot after echo is restored, paired with the failbit that lines
241-244 test to decide between continuing and exit(1). -/
def promptRun (_pw0 : String) (stdin : Option String) : PromptSnapshot × Bool :=
  let g := getline256 stdin
  (⟨true, g.stored⟩, g.failed)

/-- The run configuration built at src/main.cpp line 247, mirroring the
ProxySettings constructor arguments. -/
structure ProxySettings where
  proxyProtocol : ProxyProtocol
  proxiedProtocol : ProxiedProtocol
  proxyHost : String
  proxyPort : Int
  username : String
  password : String
deriving DecidableEq, Repr

/-- Where main ends, as far as src/main.cpp itself decides: the usage
exit(1) paths, the uncaught std::out_of_range (abnormal termination, no
exit status 1), the exit(1) after a failed password read, or reaching
the server construction at lines 249-256 with the final settings. -/
inductive MainOutcome where
  | usageExit1
  | abortedUncaught
  | promptFailExit1
  | startServer (settings : ProxySettings) (listenPort : Int)
deriving DecidableEq, Repr

/-- A command line together with the stdin line available to the
password prompt: the option events getopt yields, the remaining
positional arguments, and the prompt input. -/
structure MainInput where
  opts : List Opt
  positionals : List String
  stdin : Option String
deriving DecidableEq, Repr

/-- Result of main up to server construction: the outcome and the final
terminal echo state (echo starts enabled and is only touched by the
prompt block). -/
structure MainResult where
  outcome : MainOutcome
  echoFinal : Bool
deriving DecidableEq, Repr

/-- main, src/main.cpp lines 157-256, up to the server dispatch: the
getopt loop, the positional-argument checks, the optional password
prompt (whose read overwrites the password variable), then the
ProxySettings construction. -/
def mainRun (input : MainInput) : MainResult :=
  match applyOpts {} input.opts with
  | .error _ => ⟨.usageExit1, true⟩
  | .ok st =>
    match parsePositionals input.positionals with
    | .wrongCount => ⟨.usageExit1, true⟩
    | .invalidArg => ⟨.usageExit1, true⟩
    | .outOfRange => ⟨.abortedUncaught, true⟩
    | .ok host proxyPort listenPort =>
      if st.promptPassword then
        let r := promptRun st.password input.stdin
        if r.2 then ⟨.promptFailExit1, r.1.echoEnabled⟩
        else
          ⟨.startServer
            ⟨st.proxyProtocol, st.proxiedProtocol, host, proxyPort,
             st.username, r.1.password⟩ listenPort, r.1.echoEnabled⟩
      else
        ⟨.startServer
          ⟨st.proxyProtocol, st.proxiedProtocol, host, proxyPort,
           st.username, st.password⟩ listenPort, true⟩

/-- Modelled from the spec: the protocol-combination check performed by
the TcpServer and UdpServer constructors, whose headers are not under
src/. Spec section 6 requires exit status 1 on an unsupported protocol
choice, and the usage text in src/main.cpp lines 81-82 lists the valid
upstream choices: direct, http, socks4, socks5 for TCP and only direct,
socks5 for UDP. -/
def supportedCombination : ProxiedProtocol → ProxyProtocol → Bool
  | .TCP, _ => true
  | .UDP, .DIRECT => true
  | .UDP, .SOCKS5 => true
  | .UDP, _ => false

/-- Final fate of the process: one of the exit(1) paths, abnormal
termination from an uncaught exception, or serving with sockets open
until externally terminated. -/
inductive Outcome where
  | usageExit1
  | abortedUncaught
  | promptFailExit1
  | unsupportedProtocolExit1
  | serving (settings : ProxySettings) (listenPort : Int)
deriving DecidableEq, Repr

/-- Exit status of each outcome: the exit(1) paths give status 1;
abnormal termination and the running server have none. -/
def Outcome.exitStatus : Outcome → Option Nat
  | .usageExit1 => some 1
  | .abortedUncaught => none
  | .promptFailExit1 => some 1
  | .unsupportedProtocolExit1 => some 1
  | .serving _ _ => none

/-- Whole-program observable result: the outcome, the final terminal
echo state, and whether any listening or upstream socket was opened. -/
structure FinalResult where
  outcome : Outcome
  echoFinal : Bool
  socketsOpened : Bool
deriving DecidableEq, Repr

/-- The full program: main up to server construction, then the
spec-modelled server start. Sockets are opened only once a supported
server actually starts; every exit(1) path precedes socket creation. -/
def runProgram (input : MainInput) : FinalResult :=
  let m := mainRun input
  match m.outcome with
  | .usageExit1 => ⟨.usageExit1, m.echoFinal, false⟩
  | .abortedUncaught => ⟨.abortedUncaught, m.echoFinal, false⟩
  | .promptFailExit1 => ⟨.promptFailExit1, m.echoFinal, false⟩
  | .startServer s lp =>
    if supportedCombination s.proxiedProtocol s.proxyProtocol then
      ⟨.serving s lp, m.echoFinal, true⟩
    else
      ⟨.unsupportedProtocolExit1, m.echoFinal, false⟩

/-- Modelled from the spec: the handshake clients live in headers not
under src/. Credentials count as configured when a username or a
password was supplied (usage text, src/main.cpp lines 120-132). -/
def credentialsConfigured (username password : String) : Bool :=
  username ≠ "" || password ≠ ""

/-- The 64 characters of the standard base64 alphabet, in order. -/
def base64Chars : List Char :=
  "ABCDEFGHIJKLMNOPQRSTUVWXYZabcdefghijklmnopqrstuvwxyz0123456789+/".data

/-- Character of the base64 alphabet at a 6-bit index. -/
def base64CharOf (n : Nat) : Char :=
  base64Chars.getD n 'A'

/-- Encoding of one final group of 1, 2 or 3 bytes into 4 base64
characters, padding with = as required. -/
def base64Group : List Nat → List Char
  | [b1, b2, b3] =>
    [base64CharOf (b1 / 4),
     base64CharOf (b1 % 4 * 16 + b2 / 16),
     base64CharOf (b2 % 16 * 4 + b3 / 64),
     base64CharOf (b3 % 64)]
  | [b1, b2] =>
    [base64CharOf (b1 / 4),
     base64CharOf (b1 % 4 * 16 + b2 / 16),
     base64CharOf (b2 % 16 * 4),
     '=']
  | [b1] =>
    [base64CharOf (b1 / 4),
     base64CharOf (b1 % 4 * 16),
     '=', '=']
  | _ => []

/-- Standard base64 encoding of a byte list, three bytes at a time. -/
def base64EncodeList : List Nat → List Char
  | b1 :: b2 :: b3 :: rest => base64Group [b1, b2, b3] ++ base64EncodeList rest
  | rest => base64Group rest

/-- Standard base64 encoding of a byte list as a string. -/
def base64Encode (bs : List Nat) : String :=
  String.mk (base64EncodeList bs)

/-- Bytes of an ASCII string. -/
def strBytes (s : String) : List Nat :=
  s.data.map Char.toNat

/-- Modelled from the spec: the HTTP CONNECT request sent by the HTTP
handshake client (header not under src/), per spec section 4.2 and the
wire table: the CONNECT line, a Host header, a Proxy-Authorization
header using basic authorization exactly when credentials are
configured, then the terminating blank line. -/
def httpConnectRequest (host : String) (port : Nat) (username password : String) : String :=
  "CONNECT " ++ host ++ ":" ++ toString port ++ " HTTP/1.1\x0d\x0a" ++
  "Host: " ++ host ++ ":" ++ toString port ++ "\x0d\x0a" ++
  (if credentialsConfigured username password then
    "Proxy-Authorization: Basic " ++
      base64Encode (strBytes (username ++ ":" ++ password)) ++ "\x0d\x0a"
   else "") ++
  "\x0d\x0a"

/-- Status code carried by an HTTP response status line, when the line
is well formed: the second space-separated token, three decimal
digits. -/
def httpStatusCode (line : String) : Option Nat :=
  match line.splitOn " " with
  | _ :: code :: _ =>
    if code.length = 3 && code.data.all Char.isDigit then
      some (digitsToNat code.data)
    else none
  | _ => none

/-- Outcome of an upstream handshake: an established tunnel, or the
ProxyRejected failure. -/
inductive HandshakeOutcome where
  | tunnel
  | proxyRejected
deriving DecidableEq, Repr

/-- Modelled from the spec: how the HTTP handshake client judges the
status line of the proxy response — a 2xx status yields an established
tunnel, any other status or a malformed response fails with
ProxyRejected. -/
def httpEvalResponse (line : String) : HandshakeOutcome :=
  match httpStatusCode line with
  | some c => if 200 ≤ c && c ≤ 299 then .tunnel else .proxyRejected
  | none => .proxyRejected

/-- Modelled from the spec: the authentication method list of the SOCKS5
greeting (header not under src/) — the no-authentication method 0x00
always, plus the username/password method 0x02 exactly when credentials
are configured. -/
def socks5SupportedMethods (username password : String) : List Nat :=
  [0x00] ++ (if credentialsConfigured username password then [0x02] else [])

/-- Modelled from the spec: the SOCKS5 greeting packet — version 5, the
method count, then the method list. -/
def socks5Greeting (username password : String) : List Nat :=
  5 :: (socks5SupportedMethods username password).length
    :: socks5SupportedMethods username password

/-- Observable result of processing a SOCKS4 reply: whether a tunnel was
established, whether the upstream socket remains open, and the failure
reported if any. -/
structure Socks4Result where
  tunnelEstablished : Bool
  upstreamSocketOpen : Bool
  failure : Option HandshakeOutcome
deriving DecidableEq, Repr

/-- Modelled from the spec: handling of the 8-byte SOCKS4 reply (header
not under src/) — status byte at index 1 equal to 0x5A grants the
tunnel; any other value fails with ProxyRejected, no relay is
established, and the scoped cleanup closes the upstream socket. -/
def socks4HandleReply (reply : List Nat) : Socks4Result :=
  if reply.getD 1 0 = 0x5A then
    ⟨true, true, none⟩
  else
    ⟨false, false, some .proxyRejected⟩

/-- State of the spec-modelled stream relay: the chunks still pending in
each direction (client to destination and back) and the bytes already
delivered in each direction. -/
structure RelayState where
  pendingCD : List (List Nat)
  pendingDC : List (List Nat)
  deliveredCD : List Nat
  deliveredDC : List Nat
deriving DecidableEq, Repr

/-- Modelled from the spec: one multiplexing step of the stream relay
(implementation not under src/) — when the scheduled side has a chunk
ready, it is forwarded unmodified and in order to the opposite side;
nothing else changes. -/
def relayStep (st : RelayState) (fromClient : Bool) : RelayState :=
  if fromClient then
    match st.pendingCD with
    | [] => st
    | c :: rest => { st with pendingCD := rest, deliveredCD := st.deliveredCD ++ c }
  else
    match st.pendingDC with
    | [] => st
    | c :: rest => { st with pendingDC := rest, deliveredDC := st.deliveredDC ++ c }

/-- The relay driven by a readiness schedule: each entry names the side
whose data is forwarded next. -/
def relayRun (st : RelayState) : List Bool → RelayState
  | [] => st
  | side :: rest => relayRun (relayStep st side) rest

/-- Initial relay state for given traffic: all chunks pending, nothing
delivered yet. -/
def relayStart (cd dc : List (List Nat)) : RelayState :=
  ⟨cd, dc, [], []⟩

lemma mainRun_startServer_prompt {opts : List Opt} {ps : List String}
    {stdin : Option String} {st : OptState} {host : String} {pp lp : Int} {s : String}
    (h1 : applyOpts {} opts = .ok st) (h2 : st.promptPassword = true)
    (h3 : parsePositionals ps = .ok host pp lp)
    (h4 : getline256 stdin = ⟨s, false⟩) :
    mainRun ⟨opts, ps, stdin⟩ =
      ⟨.startServer ⟨st.proxyProtocol, st.proxiedProtocol, host, pp, st.username, s⟩ lp,
        true⟩ := by
  simp only [mainRun, h1, h3, h2, promptRun, h4, if_true]
  simp

lemma mainRun_promptFail {opts : List Opt} {ps : List String}
    {stdin : Option String} {st : OptState} {host : String} {pp lp : Int}
    (h1 : applyOpts {} opts = .ok st) (h2 : st.promptPassword = true)
    (h3 : parsePositionals ps = .ok host pp lp)
    (h4 : (getline256 stdin).failed = true) :
    mainRun ⟨opts, ps, stdin⟩ = ⟨.promptFailExit1, true⟩ := by
  simp only [mainRun, h1, h3, h2, promptRun, h4, if_true]

/-- An option event on which the getopt switch reaches one of its
exit(1) branches: a -t or -r value outside the recognised sets, or an
option getopt itself rejects. -/
def optFails : Opt → Bool
  | .t s => (tProtocolOf s).isNone
  | .r s => (rProtocolOf s).isNone
  | .u _ => false
  | .p => false
  | .P _ => false
  | .unknown => true

lemma applyOpt_error_of_fails (st : OptState) (o : Opt) (hf : optFails o = true) :
    applyOpt st o = .error () := by
  cases o with
  | t s =>
    simp only [optFails, Option.isNone_iff_eq_none] at hf
    simp [applyOpt, hf]
  | r s =>
    simp only [optFails, Option.isNone_iff_eq_none] at hf
    simp [applyOpt, hf]
  | u s => simp [optFails] at hf
  | p => simp [optFails] at hf
  | P s => simp [optFails] at hf
  | unknown => rfl

lemma applyOpts_error_of_mem {o : Opt} {opts : List Opt} (ho : o ∈ opts)
    (hf : optFails o = true) : ∀ st : OptState, applyOpts st opts = .error () := by
  induction opts with
  | nil => cases ho
  | cons head rest ih =>
    intro st
    rcases List.mem_cons.mp ho with rfl | hmem
    · simp [applyOpts, applyOpt_error_of_fails st o hf]
    · cases happ : applyOpt st head with
      | error e => cases e; simp [applyOpts, happ]
      | ok st2 => simp [applyOpts, happ]; exact ih hmem st2

lemma tProtocolOf_eq_none {s : String}
    (h : s ∉ (["direct", "http", "socks4", "socks5"] : List String)) :
    tProtocolOf s = none := by
  simp only [List.mem_cons, List.not_mem_nil, or_false, not_or] at h
  simp [tProtocolOf, h.1, h.2.1, h.2.2.1, h.2.2.2]

lemma rProtocolOf_eq_none {s : String}
    (h : s ∉ (["tcp", "udp"] : List String)) :
    rProtocolOf s = none := by
  simp only [List.mem_cons, List.not_mem_nil, or_false, not_or] at h
  simp [rProtocolOf, h.1, h.2]

lemma parsePositionals_wrongCount {ps : List String} (h : ps.length ≠ 3) :
    parsePositionals ps = .wrongCount := by
  match ps with
  | [] => rfl
  | [_] => rfl
  | [_, _] => rfl
  | [_, _, _] => exact absurd rfl h
  | _ :: _ :: _ :: _ :: _ => rfl

lemma parsePositionals_invalidArg {a b c : String}
    (h : stoiClassify b = .invalidArgument ∨
      ((∃ v, stoiClassify b = .ok v) ∧ stoiClassify c = .invalidArgument)) :
    parsePositionals [a, b, c] = .invalidArg := by
  rcases h with hb | ⟨⟨v, hv⟩, hc⟩
  · simp [parsePositionals, hb]
  · simp [parsePositionals, hv, hc]

/-- C1: for every command line whose parsing succeeds and selects an
unsupported combination of proxied and upstream protocol (such as
proxied protocol udp with upstream protocol http or socks4), the process
exits with status 1 before any socket is opened. -/
theorem unsupported_combination_exits_before_socket
    (input : MainInput) (s : ProxySettings) (lp : Int)
    (hstart : (mainRun input).outcome = .startServer s lp)
    (hunsup : supportedCombination s.proxiedProtocol s.proxyProtocol = false) :
    (runProgram input).outcome.exitStatus = some 1 ∧
      (runProgram input).socketsOpened = false := by
  simp only [runProgram, hstart, hunsup]
  simp [Outcome.exitStatus]

/-- Witness for C1 at the command line -r udp with the default upstream
protocol http. -/
theorem unsupported_combination_exits_before_socket_witness :
    (mainRun ⟨[.r "udp"], ["proxyserver", "8080", "10000"], none⟩).outcome =
      MainOutcome.startServer
        ⟨ProxyProtocol.HTTP, ProxiedProtocol.UDP, "proxyserver", 8080, "", ""⟩ 10000 ∧
    supportedCombination .UDP .HTTP = false ∧
    ((runProgram ⟨[.r "udp"], ["proxyserver", "8080", "10000"], none⟩).outcome.exitStatus =
        some 1 ∧
      (runProgram ⟨[.r "udp"], ["proxyserver", "8080", "10000"], none⟩).socketsOpened =
        false) :=
  ⟨by decide, by decide,
    unsupported_combination_exits_before_socket
      ⟨[.r "udp"], ["proxyserver", "8080", "10000"], none⟩
      ⟨ProxyProtocol.HTTP, ProxiedProtocol.UDP, "proxyserver", 8080, "", ""⟩
      10000 (by decide) (by decide)⟩

/-- C2 counterexample: on the command line the -p option comes first and
-P optionpass second, yet the password used is the prompted line
typedpass, not the later -P value, because the prompt runs after the
whole option loop and overwrites the password variable. -/
theorem later_P_option_does_not_win :
    (mainRun ⟨[.p, .P "optionpass"], ["proxy", "8080", "10000"],
        some "typedpass"⟩).outcome =
      .startServer ⟨.HTTP, .TCP, "proxy", 8080, "", "typedpass"⟩ 10000 ∧
    "typedpass" ≠ "optionpass" := by
  constructor
  · decide
  · decide

/-- C2 as amended: when both -P PASSWORD and -p appear, the prompted
password wins in either order, because the prompt is performed after
option parsing and overwrites any -P value. -/
theorem prompted_password_wins_regardless_of_order
    (pw s : String) (hs : s.length ≤ 255) :
    (mainRun ⟨[.P pw, .p], ["proxy", "8080", "10000"], some s⟩).outcome =
      .startServer ⟨.HTTP, .TCP, "proxy", 8080, "", s⟩ 10000 ∧
    (mainRun ⟨[.p, .P pw], ["proxy", "8080", "10000"], some s⟩).outcome =
      .startServer ⟨.HTTP, .TCP, "proxy", 8080, "", s⟩ 10000 := by
  have h3 : parsePositionals ["proxy", "8080", "10000"] = .ok "proxy" 8080 10000 := by
    decide
  have h4 : getline256 (some s) = ⟨s, false⟩ := by
    simp [getline256, hs]
  have h1a : applyOpts {} [Opt.P pw, Opt.p] = .ok ⟨.HTTP, .TCP, "", pw, true⟩ := rfl
  have h1b : applyOpts {} [Opt.p, Opt.P pw] = .ok ⟨.HTTP, .TCP, "", pw, true⟩ := rfl
  constructor
  · rw [mainRun_startServer_prompt h1a rfl h3 h4]
  · rw [mainRun_startServer_prompt h1b rfl h3 h4]

/-- Witness for C2 as amended, at a three-character prompted line. -/
theorem prompted_password_wins_regardless_of_order_witness :
    ("typed" : String).length ≤ 255 ∧
    ((mainRun ⟨[.P "opt", .p], ["proxy", "8080", "10000"], some "typed"⟩).outcome =
        .startServer ⟨.HTTP, .TCP, "proxy", 8080, "", "typed"⟩ 10000 ∧
      (mainRun ⟨[.p, .P "opt"], ["proxy", "8080", "10000"], some "typed"⟩).outcome =
        .startServer ⟨.HTTP, .TCP, "proxy", 8080, "", "typed"⟩ 10000) :=
  ⟨by decide, prompted_password_wins_regardless_of_order "opt" "typed" (by decide)⟩

/-- C3 counterexample: a PROXY_PORT positional argument whose value does
not fit an int makes std::stoi raise std::out_of_range, which the catch
of std::invalid_argument in src/main.cpp lines 225-228 does not handle:
the process terminates abnormally instead of printing the usage message
and exiting with status 1. -/
theorem out_of_range_port_aborts_uncaught :
    runProgram ⟨[], ["proxyhost", "99999999999", "1000"], none⟩ =
      ⟨.abortedUncaught, true, false⟩ ∧
    Outcome.abortedUncaught.exitStatus ≠ some 1 := by
  constructor
  · decide
  · decide

/-- C3 as amended: a number of positional arguments different from
three, or a PROXY_PORT or LISTEN_PORT whose text allows no integer
conversion at all, leads to the usage message and exit status 1 with no
sockets opened; an out-of-range value instead terminates abnormally
through an uncaught std::out_of_range. -/
theorem bad_positionals_usage_exit1
    (input : MainInput)
    (h : input.positionals.length ≠ 3 ∨
      ∃ a b c, input.positionals = [a, b, c] ∧
        (stoiClassify b = .invalidArgument ∨
          ((∃ v, stoiClassify b = .ok v) ∧ stoiClassify c = .invalidArgument))) :
    (runProgram input).outcome = .usageExit1 ∧
      (runProgram input).socketsOpened = false := by
  have hbad : parsePositionals input.positionals = .wrongCount ∨
      parsePositionals input.positionals = .invalidArg := by
    rcases h with h | ⟨a, b, c, hps, h⟩
    · exact Or.inl (parsePositionals_wrongCount h)
    · exact Or.inr (hps ▸ parsePositionals_invalidArg h)
  have hmain : mainRun input = ⟨.usageExit1, true⟩ := by
    simp only [mainRun]
    cases happ : applyOpts {} input.opts with
    | error e => rfl
    | ok st => rcases hbad with hb | hb <;> simp [hb]
  simp [runProgram, hmain]

/-- Witness for C3 as amended, at a PROXY_PORT with no digits. -/
theorem bad_positionals_usage_exit1_witness :
    ((runProgram ⟨[], ["h", "x", "80"], none⟩).outcome = .usageExit1 ∧
      (runProgram ⟨[], ["h", "x", "80"], none⟩).socketsOpened = false) :=
  bad_positionals_usage_exit1 ⟨[], ["h", "x", "80"], none⟩
    (Or.inr ⟨"h", "x", "80", rfl, Or.inl (by decide)⟩)

/-- C4: a -t value outside direct, http, socks4, socks5, or a -r value
outside tcp, udp, anywhere on the command line, makes the process print
the usage message and exit with status 1, with no sockets opened. -/
theorem unknown_protocol_value_exits1
    (input : MainInput)
    (h : (∃ s, Opt.t s ∈ input.opts ∧
            s ∉ (["direct", "http", "socks4", "socks5"] : List String)) ∨
         (∃ s, Opt.r s ∈ input.opts ∧ s ∉ (["tcp", "udp"] : List String))) :
    (runProgram input).outcome = .usageExit1 ∧
      (runProgram input).socketsOpened = false := by
  have herr : applyOpts {} input.opts = .error () := by
    rcases h with ⟨s, hmem, hs⟩ | ⟨s, hmem, hs⟩
    · exact applyOpts_error_of_mem hmem
        (by simp [optFails, tProtocolOf_eq_none hs]) {}
    · exact applyOpts_error_of_mem hmem
        (by simp [optFails, rProtocolOf_eq_none hs]) {}
  have hmain : mainRun input = ⟨.usageExit1, true⟩ := by
    simp [mainRun, herr]
  simp [runProgram, hmain]

/-- Witness for C4 at the unrecognised upstream protocol socks6. -/
theorem unknown_protocol_value_exits1_witness :
    ((runProgram ⟨[.t "socks6"], ["h", "1", "2"], none⟩).outcome = .usageExit1 ∧
      (runProgram ⟨[.t "socks6"], ["h", "1", "2"], none⟩).socketsOpened = false) :=
  unknown_protocol_value_exits1 ⟨[.t "socks6"], ["h", "1", "2"], none⟩
    (Or.inl ⟨"socks6", by decide, by decide⟩)

/-- C5 counterexample: the prompt block of src/main.cpp lines 230-245
brackets the read with a manual echo disable/enable pair, so at the
program point where getline blocks (trace index 2) the terminal echo is
disabled; a termination of the process at that point leaves echo
disabled, against the claim that echo is restored on every exit path
including interruption. -/
theorem echo_disabled_while_read_blocks :
    (promptTrace "" (some "hunter2"))[2]? = some ⟨false, ""⟩ := by
  decide

/-- C5 as amended: whenever the prompt block runs to completion — the
successful read as well as the failed read, whose exit(1) comes only
after the restore — terminal echo ends enabled; but the restore is a
manual disable/enable pair, so the intermediate point at which the read
blocks has echo disabled, and an interruption there leaves it
disabled. -/
theorem echo_restored_only_on_completed_paths (pw0 : String) (stdin : Option String) :
    (promptRun pw0 stdin).1.echoEnabled = true ∧
    (promptTrace pw0 stdin)[4]? =
      some ⟨true, (getline256 stdin).stored⟩ ∧
    (promptTrace pw0 stdin)[2]? = some ⟨false, pw0⟩ := by
  refine ⟨rfl, ?_, ?_⟩ <;> simp [promptTrace]

lemma httpEvalResponse_eq_tunnel_iff (line : String) :
    httpEvalResponse line = .tunnel ↔
      ∃ c, httpStatusCode line = some c ∧ 200 ≤ c ∧ c ≤ 299 := by
  unfold httpEvalResponse
  cases hc : httpStatusCode line with
  | none => simp
  | some c =>
    simp only [Option.some.injEq]
    by_cases h200 : 200 ≤ c
    · by_cases h299 : c ≤ 299
      · simp [h200, h299]
      · simp [h200, h299]
    · simp [h200]

lemma httpEvalResponse_cases (line : String) :
    httpEvalResponse line = .tunnel ∨ httpEvalResponse line = .proxyRejected := by
  match httpEvalResponse line with
  | .tunnel => exact Or.inl rfl
  | .proxyRejected => exact Or.inr rfl

/-- C6: the HTTP handshake request consists of the CONNECT line, the
Host header, a Proxy-Authorization header with the basic scheme exactly
when credentials are configured, and the terminating blank line; the
credentials alice, secret encode to YWxpY2U6c2VjcmV0; a response whose
status line carries a 2xx code yields an established tunnel, and any
other status or a malformed response fails with ProxyRejected. -/
theorem http_handshake_request_and_response
    (host : String) (port : Nat) (u p line : String) :
    httpConnectRequest host port u p =
      "CONNECT " ++ host ++ ":" ++ toString port ++ " HTTP/1.1\r\n" ++
      "Host: " ++ host ++ ":" ++ toString port ++ "\r\n" ++
      (if credentialsConfigured u p then
        "Proxy-Authorization: Basic " ++
          base64Encode (strBytes (u ++ ":" ++ p)) ++ "\r\n"
       else "") ++ "\r\n" ∧
    base64Encode (strBytes ("alice" ++ ":" ++ "secret")) = "YWxpY2U6c2VjcmV0" ∧
    (httpEvalResponse line = .tunnel ↔
      ∃ c, httpStatusCode line = some c ∧ 200 ≤ c ∧ c ≤ 299) ∧
    (httpEvalResponse line = .proxyRejected ↔
      ¬∃ c, httpStatusCode line = some c ∧ 200 ≤ c ∧ c ≤ 299) := by
  refine ⟨rfl, by decide, httpEvalResponse_eq_tunnel_iff line, ?_⟩
  rw [← httpEvalResponse_eq_tunnel_iff line]
  rcases httpEvalResponse_cases line with h | h <;> simp [h]

/-- C7: the SOCKS5 greeting lists exactly the no-authentication method
0x00 when no credentials are configured, and exactly the
no-authentication and username/password methods 0x00, 0x02 when
credentials are configured, and the greeting packet carries version 5,
the method count, then the methods. -/
theorem socks5_greeting_method_list (u p : String) :
    (socks5SupportedMethods u p = [0x00] ↔ credentialsConfigured u p = false) ∧
    (socks5SupportedMethods u p = [0x00, 0x02] ↔ credentialsConfigured u p = true) ∧
    socks5Greeting u p =
      5 :: (socks5SupportedMethods u p).length :: socks5SupportedMethods u p := by
  cases h : credentialsConfigured u p <;>
    simp [socks5SupportedMethods, socks5Greeting, h]

/-- C8: for an 8-byte SOCKS4 reply, a status byte 0x5A at index 1
establishes the tunnel with the upstream socket kept open; any other
status byte fails with ProxyRejected, establishes no relay, and the
upstream socket is closed; in particular status 0x5B is rejected. -/
theorem socks4_reply_status_decides (reply : List Nat) (_h : reply.length = 8) :
    ((socks4HandleReply reply).tunnelEstablished = true ↔ reply.getD 1 0 = 0x5A) ∧
    ((socks4HandleReply reply).failure = some .proxyRejected ↔
      reply.getD 1 0 ≠ 0x5A) ∧
    (socks4HandleReply reply).upstreamSocketOpen =
      (socks4HandleReply reply).tunnelEstablished ∧
    socks4HandleReply [0, 0x5B, 0, 0, 0, 0, 0, 0] =
      ⟨false, false, some .proxyRejected⟩ := by
  by_cases hs : reply.getD 1 0 = 0x5A
  · rw [socks4HandleReply, if_pos hs]
    exact ⟨iff_of_true rfl hs,
      iff_of_false (fun hco => Option.noConfusion hco) (not_not_intro hs),
      rfl, by decide⟩
  · rw [socks4HandleReply, if_neg hs]
    exact ⟨iff_of_false (by simp) hs, iff_of_true rfl hs, rfl, by decide⟩

/-- Witness for C8 at the granting reply status 0x5A. -/
theorem socks4_reply_status_decides_witness :
    ([0, 0x5A, 0, 0, 0, 0, 0, 0] : List Nat).length = 8 ∧
    (((socks4HandleReply [0, 0x5A, 0, 0, 0, 0, 0, 0]).tunnelEstablished = true ↔
        ([0, 0x5A, 0, 0, 0, 0, 0, 0] : List Nat).getD 1 0 = 0x5A) ∧
      ((socks4HandleReply [0, 0x5A, 0, 0, 0, 0, 0, 0]).failure =
          some .proxyRejected ↔
        ([0, 0x5A, 0, 0, 0, 0, 0, 0] : List Nat).getD 1 0 ≠ 0x5A) ∧
      (socks4HandleReply [0, 0x5A, 0, 0, 0, 0, 0, 0]).upstreamSocketOpen =
        (socks4HandleReply [0, 0x5A, 0, 0, 0, 0, 0, 0]).tunnelEstablished ∧
      socks4HandleReply [0, 0x5B, 0, 0, 0, 0, 0, 0] =
        ⟨false, false, some .proxyRejected⟩) :=
  ⟨by decide, socks4_reply_status_decides [0, 0x5A, 0, 0, 0, 0, 0, 0] (by decide)⟩

lemma relayStep_inv (st : RelayState) (b : Bool) :
    (relayStep st b).deliveredCD ++ (relayStep st b).pendingCD.flatten =
        st.deliveredCD ++ st.pendingCD.flatten ∧
      (relayStep st b).deliveredDC ++ (relayStep st b).pendingDC.flatten =
        st.deliveredDC ++ st.pendingDC.flatten := by
  cases b with
  | true =>
    cases h : st.pendingCD with
    | nil => simp [relayStep, h]
    | cons c rest => simp [relayStep, h, List.append_assoc]
  | false =>
    cases h : st.pendingDC with
    | nil => simp [relayStep, h]
    | cons c rest => simp [relayStep, h, List.append_assoc]

lemma relayRun_inv (sched : List Bool) (st : RelayState) :
    (relayRun st sched).deliveredCD ++ (relayRun st sched).pendingCD.flatten =
        st.deliveredCD ++ st.pendingCD.flatten ∧
      (relayRun st sched).deliveredDC ++ (relayRun st sched).pendingDC.flatten =
        st.deliveredDC ++ st.pendingDC.flatten := by
  induction sched generalizing st with
  | nil => exact ⟨rfl, rfl⟩
  | cons side rest ih =>
    have hstep := relayStep_inv st side
    have hrest := ih (relayStep st side)
    exact ⟨by rw [relayRun, hrest.1, hstep.1], by rw [relayRun, hrest.2, hstep.2]⟩

/-- C9: under any readiness schedule that drains both directions, the
relay delivers in each direction exactly the concatenation of the
chunks written on that side, unmodified and in order — byte-for-byte
identity with no framing, inspection, or transformation. -/
theorem relay_preserves_byte_streams (cd dc : List (List Nat)) (sched : List Bool)
    (hcd : (relayRun (relayStart cd dc) sched).pendingCD = [])
    (hdc : (relayRun (relayStart cd dc) sched).pendingDC = []) :
    (relayRun (relayStart cd dc) sched).deliveredCD = cd.flatten ∧
    (relayRun (relayStart cd dc) sched).deliveredDC = dc.flatten := by
  have hinv := relayRun_inv sched (relayStart cd dc)
  constructor
  · have h1 := hinv.1
    rw [hcd] at h1
    simpa [relayStart] using h1
  · have h2 := hinv.2
    rw [hdc] at h2
    simpa [relayStart] using h2

/-- Witness for C9 at two chunks one way, one chunk the other, under an
interleaved schedule. -/
theorem relay_preserves_byte_streams_witness :
    (relayRun (relayStart [[1, 2], [3]] [[4]]) [true, false, true]).pendingCD = [] ∧
    (relayRun (relayStart [[1, 2], [3]] [[4]]) [true, false, true]).pendingDC = [] ∧
    ((relayRun (relayStart [[1, 2], [3]] [[4]]) [true, false, true]).deliveredCD =
        ([[1, 2], [3]] : List (List Nat)).flatten ∧
      (relayRun (relayStart [[1, 2], [3]] [[4]]) [true, false, true]).deliveredDC =
        ([[4]] : List (List Nat)).flatten) :=
  ⟨by decide, by decide,
    relay_preserves_byte_streams [[1, 2], [3]] [[4]] [true, false, true]
      (by decide) (by decide)⟩

/-- C10: when the prompt is requested and CLI parsing succeeded, a stdin
line of at most 255 characters becomes the password of the final
settings, replacing any -P password; a read failure — no line available,
or a line of 256 or more characters — leads to the error exit(1), and in
every case terminal echo is re-enabled beforehand. -/
theorem prompt_password_read_outcomes
    (input : MainInput) (st : OptState) (host : String) (pp lp : Int)
    (h1 : applyOpts {} input.opts = .ok st)
    (h2 : st.promptPassword = true)
    (h3 : parsePositionals input.positionals = .ok host pp lp) :
    (∀ s, input.stdin = some s → s.length ≤ 255 →
      mainRun input =
        ⟨.startServer
          ⟨st.proxyProtocol, st.proxiedProtocol, host, pp, st.username, s⟩ lp,
          true⟩) ∧
    (∀ s, input.stdin = some s → 256 ≤ s.length →
      mainRun input = ⟨.promptFailExit1, true⟩) ∧
    (input.stdin = none → mainRun input = ⟨.promptFailExit1, true⟩) := by
  obtain ⟨opts, ps, stdin⟩ := input
  refine ⟨?_, ?_, ?_⟩
  · intro s hs hlen
    cases hs
    exact mainRun_startServer_prompt h1 h2 h3 (by simp [getline256, hlen])
  · intro s hs hlen
    cases hs
    refine mainRun_promptFail h1 h2 h3 ?_
    have : ¬s.length ≤ 255 := by omega
    simp [getline256, this]
  · intro hs
    cases hs
    exact mainRun_promptFail h1 h2 h3 rfl

/-- Witness for C10 at the lone -p option and a two-character line. -/
theorem prompt_password_read_outcomes_witness :
    applyOpts {} [Opt.p] =
      .ok ⟨ProxyProtocol.HTTP, ProxiedProtocol.TCP, "", "", true⟩ ∧
    parsePositionals ["h", "1", "2"] = .ok "h" 1 2 ∧
    ((∀ s, (some "pw" : Option String) = some s → s.length ≤ 255 →
      mainRun ⟨[Opt.p], ["h", "1", "2"], some "pw"⟩ =
        ⟨.startServer ⟨ProxyProtocol.HTTP, ProxiedProtocol.TCP, "h", 1, "", s⟩ 2,
          true⟩) ∧
    (∀ s, (some "pw" : Option String) = some s → 256 ≤ s.length →
      mainRun ⟨[Opt.p], ["h", "1", "2"], some "pw"⟩ = ⟨.promptFailExit1, true⟩) ∧
    ((some "pw" : Option String) = none →
      mainRun ⟨[Opt.p], ["h", "1", "2"], some "pw"⟩ = ⟨.promptFailExit1, true⟩)) :=
  ⟨rfl, by decide,
    prompt_password_read_outcomes ⟨[Opt.p], ["h", "1", "2"], some "pw"⟩
      ⟨ProxyProtocol.HTTP, ProxiedProtocol.TCP, "", "", true⟩ "h" 1 2
      rfl rfl (by decide)⟩

end Transproxify
